import Mathlib

/-!
Shallow embedding of the backend request handlers of TheCrookedFence
(src/thecrookedfence.co.za/functions/src/index.js) together with proofs
about the properties the specification states.

Modelling conventions:
- JavaScript values that the code probes only for truthiness are modelled
  by the types the code actually stores there (strings, booleans), with
  truthiness made explicit (a string is truthy iff non-empty, an Option is
  truthy iff it is `some` of a truthy value).
- External stores (the document database, the identity provider) are
  explicit association lists threaded through each handler.  A handler
  returns a pair of an `Except` outcome and the final state of every store
  it can touch; a thrown `HttpsError` leaves the stores exactly as they
  were, matching how a JS exception aborts the function body.
- The external email provider is modelled by passing the outcome of its
  single `send` call as a parameter (`Except String (Option String)`:
  a rejection message, or the resolved message id which may be absent).
- `Math.random().toString(36)` is modelled by its string representation
  (the only thing the code consumes), with a predicate characterising the
  strings that call can produce for arguments in [0, 1).
- Server timestamps are modelled by a `Nat` clock value passed in.
-/

namespace CrookedFence

/-- Failure codes of `functions.https.HttpsError` used by this code base. -/
inductive ErrorCode where
  | unauthenticated
  | permissionDenied
  | invalidArgument
  | failedPrecondition
  | notFound
  deriving DecidableEq, Repr

/-- An `HttpsError` as thrown by the handlers: a code plus a message. -/
structure HttpsError where
  code : ErrorCode
  message : String
  deriving DecidableEq, Repr

/-- A failure escaping a handler: an `HttpsError`, an identity-provider
error propagated unchanged, or an email-provider send rejection. -/
inductive Failure where
  | https (e : HttpsError)
  | provider (msg : String)
  | emailSend (msg : String)
  deriving DecidableEq, Repr

/-- The decoded token of an authenticated caller: an optional email and an
optional `role` custom claim. -/
structure Token where
  email : Option String := none
  role : Option String := none
  deriving DecidableEq, Repr

/-- The authenticated identity delivered with a request. -/
structure AuthInfo where
  uid : String
  token : Token
  deriving DecidableEq, Repr

/-- The request context: `auth` is absent when the caller is anonymous. -/
structure Context where
  auth : Option AuthInfo := none
  deriving DecidableEq, Repr

/-- JS `c` lower-cased, for the ASCII range this code handles. -/
def jsCharToLower (c : Char) : Char :=
  if 65 ≤ c.toNat ∧ c.toNat ≤ 90 then Char.ofNat (c.toNat + 32) else c

/-- JS `x.toLowerCase()` restricted to the strings this code handles. -/
def jsToLower (s : String) : String :=
  String.mk (s.data.map jsCharToLower)

/-- JS `x.trim()`: strip leading and trailing whitespace. -/
def jsTrim (s : String) : String :=
  String.mk (((s.data.dropWhile Char.isWhitespace).reverse.dropWhile
    Char.isWhitespace).reverse)

/-- JS `v || d` for an optional string `v`: the default replaces both an
absent value and an empty (falsy) string. -/
def jsOr (v : Option String) (d : String) : String :=
  match v with
  | none => d
  | some s => if s = "" then d else s

/-- `BOOTSTRAP_ADMINS` (index.js line 8): the compiled-in allow-list. -/
def BOOTSTRAP_ADMINS : List String :=
  ["bradsgbaker14@gmail.com",
   "admin@thecrookedfence.co.za",
   "stolschristopher60@gmail.com"]

/-- `context.auth?.token?.email?.toLowerCase?.() ?? ""` (index.js line 15). -/
def tokenEmailLower (context : Context) : String :=
  match context.auth with
  | none => ""
  | some a =>
    match a.token.email with
    | none => ""
    | some e => jsToLower e

/-- `context.auth?.token?.role ?? null` (index.js line 16). -/
def claimRoleOf (context : Context) : Option String :=
  context.auth.bind (fun a => a.token.role)

/-- `getRoleFromContext` (index.js line 14).  The `if (claimRole)` test is
JS truthiness, so an empty-string claim falls through to the bootstrap
check exactly as a missing claim does. -/
def getRoleFromContext (context : Context) : Option String :=
  let email := tokenEmailLower context
  let claimRole := claimRoleOf context
  match claimRole with
  | some r =>
    if r ≠ "" then some r
    else if email ∈ BOOTSTRAP_ADMINS then some "admin" else none
  | none =>
    if email ∈ BOOTSTRAP_ADMINS then some "admin" else none

/-- `requireAdmin` (index.js line 22). -/
def requireAdmin (context : Context) : Except HttpsError Unit :=
  let role := getRoleFromContext context
  if role ≠ some "admin" ∧ role ≠ some "super_admin" then
    .error ⟨.permissionDenied, "Admin access required."⟩
  else
    .ok ()

/-- `requireStaff` (index.js line 29). -/
def requireStaff (context : Context) : Except HttpsError Unit :=
  let role := getRoleFromContext context
  if role ≠ some "admin" ∧ role ≠ some "super_admin" ∧ role ≠ some "worker" then
    .error ⟨.permissionDenied, "Staff access required."⟩
  else
    .ok ()

/-- Environment configuration feeding `getResendClient`. -/
structure Config where
  envResendApiKey : Option String := none
  functionsConfigResendApiKey : Option String := none
  deriving DecidableEq, Repr

/-- `getResendClient` (index.js line 36), reduced to the API key the client
would be built from; `none` models the `null` (unconfigured) result. -/
def getResendClient (cfg : Config) : Option String :=
  let apiKey : String :=
    match cfg.envResendApiKey with
    | some k => if k = "" then jsOr cfg.functionsConfigResendApiKey "" else k
    | none => jsOr cfg.functionsConfigResendApiKey ""
  if apiKey = "" then none else some apiKey

/-! ## Document store primitives

A Firestore collection is an association list from document id to
document; ids are unique in any well-formed store state. -/

/-- Fetch the document stored under `id`, if any. -/
def lookupDoc {α : Type} : List (String × α) → String → Option α
  | [], _ => none
  | p :: rest, id => if p.1 = id then some p.2 else lookupDoc rest id

/-- Store `d` under `id`: replace the existing entry in place, or append. -/
def setDoc {α : Type} : List (String × α) → String → α → List (String × α)
  | [], id, d => [(id, d)]
  | p :: rest, id, d => if p.1 = id then (id, d) :: rest else p :: setDoc rest id d

/-- Delete the document stored under `id` (a no-op when absent). -/
def deleteDoc {α : Type} (coll : List (String × α)) (id : String) : List (String × α) :=
  coll.filter (fun p => p.1 ≠ id)

/-- A document of the `users` collection.  Every field is optional because
a merge write onto a missing document creates it with only the merged
fields.  `rest` stands for any further fields a document may carry that
this code never writes. -/
structure UserDoc where
  email : Option String := none
  role : Option String := none
  disabled : Option Bool := none
  createdAt : Option Nat := none
  updatedAt : Option Nat := none
  rest : List (String × String) := []
  deriving DecidableEq, Repr

/-- A record of the external identity provider (Firebase Auth). -/
structure AuthUser where
  email : String
  password : String
  disabled : Bool := false
  claimRole : Option String := none
  deriving DecidableEq, Repr

/-- The identity-provider state: records keyed by uid. -/
structure AuthState where
  users : List (String × AuthUser) := []
  deriving DecidableEq, Repr

/-! ## ensureCurrentUserProfile -/

/-- The value returned by `ensureCurrentUserProfile`. -/
structure EnsureResult where
  uid : String
  email : String
  role : Option String
  deriving DecidableEq, Repr

/-- `ensureCurrentUserProfile` (index.js line 41).  `users` is the `users`
collection; `now` is the server timestamp both writes would record.  The
returned list is the collection after the call; on a thrown error it is
returned unchanged. -/
def ensureCurrentUserProfile (context : Context) (users : List (String × UserDoc))
    (now : Nat) :
    Except Failure EnsureResult × List (String × UserDoc) :=
  match context.auth with
  | none => (.error (.https ⟨.unauthenticated, "Sign in required."⟩), users)
  | some auth =>
    let uid := auth.uid
    let email := jsOr auth.token.email ""
    let role := getRoleFromContext context
    match lookupDoc users uid with
    | none =>
      let doc : UserDoc :=
        { email := some email, role := role, disabled := some false,
          createdAt := some now, updatedAt := some now, rest := [] }
      (.ok ⟨uid, email, role⟩, setDoc users uid doc)
    | some snapshot =>
      let mergedRole : Option String :=
        match role with
        | some r => some r
        | none => snapshot.role
      let doc : UserDoc :=
        { snapshot with email := some email, role := mergedRole, updatedAt := some now }
      (.ok ⟨uid, email, role⟩, setDoc users uid doc)

/-! ## createAuthUser -/

/-- The input object of `createAuthUser`; absent fields are `none`. -/
structure CreateUserInput where
  email : Option String := none
  role : Option String := none
  password : Option String := none
  deriving DecidableEq, Repr

/-- The value returned by `createAuthUser`. -/
structure CreateUserResult where
  uid : String
  temporaryPassword : Option String
  deriving DecidableEq, Repr

/-- JS `s.slice(-8)`: the last eight characters of `s`, or all of `s`
when it is shorter than eight characters. -/
def jsSliceLast8 (s : String) : String :=
  String.mk (s.data.drop (s.data.length - 8))

/-- `createAuthUser` (index.js line 75).  `randRepr` is the string
`Math.random().toString(36)` produced for this call; `newUid` is the uid
the identity provider assigns to the created record.  `createUser` fails
on a duplicate email, and that provider failure propagates unrecovered. -/
def createAuthUser (input : CreateUserInput) (context : Context) (randRepr : String)
    (newUid : String) (auth : AuthState) (users : List (String × UserDoc)) (now : Nat) :
    Except Failure CreateUserResult × AuthState × List (String × UserDoc) :=
  match requireAdmin context with
  | .error e => (.error (.https e), auth, users)
  | .ok _ =>
    let email := jsToLower (jsTrim (jsOr input.email ""))
    let role := jsTrim (jsOr input.role "worker")
    let password := jsTrim (jsOr input.password "")
    if email = "" then
      (.error (.https ⟨.invalidArgument, "Email is required."⟩), auth, users)
    else
      let generatedPassword :=
        if password ≠ "" then password else "Temp" ++ jsSliceLast8 randRepr ++ "!"
      if auth.users.any (fun p => p.2.email = email) then
        (.error (.provider "auth/email-already-exists"), auth, users)
      else
        let auth1 : AuthState :=
          ⟨auth.users ++ [(newUid, { email := email, password := generatedPassword })]⟩
        let auth2 : AuthState :=
          ⟨auth1.users.map (fun p =>
            if p.1 = newUid then (p.1, { p.2 with claimRole := some role }) else p)⟩
        let doc : UserDoc :=
          { email := some email, role := some role, disabled := some false,
            createdAt := some now, updatedAt := some now, rest := [] }
        (.ok ⟨newUid, if password ≠ "" then none else some generatedPassword⟩,
         auth2, setDoc users newUid doc)

/-! ## updateAuthUserStatus -/

/-- A JavaScript value as far as `Boolean(...)` coercion is concerned. -/
inductive JSVal where
  | undef
  | null
  | bool (b : Bool)
  | num (n : Int)
  | str (s : String)
  deriving DecidableEq, Repr

/-- JS `Boolean(v)` (truthiness; numbers are modelled as integers). -/
def JSVal.toBool : JSVal → Bool
  | .undef => false
  | .null => false
  | .bool b => b
  | .num n => n ≠ 0
  | .str s => s ≠ ""

/-- The input object of `updateAuthUserStatus`. -/
structure UpdateStatusInput where
  uid : Option String := none
  disabled : JSVal := .undef
  deriving DecidableEq, Repr

/-- The value returned by `updateAuthUserStatus`. -/
structure UpdateStatusResult where
  uid : String
  disabled : Bool
  deriving DecidableEq, Repr

/-- `updateAuthUserStatus` (index.js line 109).  `updateUser` fails when
the uid has no identity-provider record; the merge write then never runs
(the two writes are sequential with no rollback). -/
def updateAuthUserStatus (input : UpdateStatusInput) (context : Context)
    (auth : AuthState) (users : List (String × UserDoc)) (now : Nat) :
    Except Failure UpdateStatusResult × AuthState × List (String × UserDoc) :=
  match requireAdmin context with
  | .error e => (.error (.https e), auth, users)
  | .ok _ =>
    let uid := jsTrim (jsOr input.uid "")
    let disabled := input.disabled.toBool
    if uid = "" then
      (.error (.https ⟨.invalidArgument, "User id is required."⟩), auth, users)
    else
      match lookupDoc auth.users uid with
      | none => (.error (.provider "auth/user-not-found"), auth, users)
      | some record =>
        let auth1 : AuthState := ⟨setDoc auth.users uid { record with disabled := disabled }⟩
        let oldDoc : UserDoc := (lookupDoc users uid).getD {}
        let newDoc : UserDoc := { oldDoc with disabled := some disabled, updatedAt := some now }
        (.ok ⟨uid, disabled⟩, auth1, setDoc users uid newDoc)

/-! ## deleteAuthUser -/

/-- The input object of `deleteAuthUser`. -/
structure DeleteUserInput where
  uid : Option String := none
  deriving DecidableEq, Repr

/-- `deleteAuthUser` (index.js line 132).  `deleteUser` fails when the uid
has no identity-provider record; the document delete then never runs. -/
def deleteAuthUser (input : DeleteUserInput) (context : Context)
    (auth : AuthState) (users : List (String × UserDoc)) :
    Except Failure String × AuthState × List (String × UserDoc) :=
  match requireAdmin context with
  | .error e => (.error (.https e), auth, users)
  | .ok _ =>
    let uid := jsTrim (jsOr input.uid "")
    if uid = "" then
      (.error (.https ⟨.invalidArgument, "User id is required."⟩), auth, users)
    else
      match lookupDoc auth.users uid with
      | none => (.error (.provider "auth/user-not-found"), auth, users)
      | some _ =>
        (.ok uid, ⟨deleteDoc auth.users uid⟩, deleteDoc users uid)

/-! ## deleteCategoryWithItems -/

/-- A document of the `stockItems` collection: only its `categoryId` field
matters to this code. -/
structure StockItem where
  categoryId : String
  deriving DecidableEq, Repr

/-- A document of the `stockCategories` collection (opaque payload). -/
structure CategoryDoc where
  name : String := ""
  deriving DecidableEq, Repr

/-- The stock portion of the document store. -/
structure StockState where
  stockItems : List (String × StockItem) := []
  stockCategories : List (String × CategoryDoc) := []
  deriving DecidableEq, Repr

/-- The input object of `deleteCategoryWithItems`. -/
structure DeleteCategoryInput where
  categoryId : Option String := none
  deriving DecidableEq, Repr

/-- `deleteCategoryWithItems` (index.js line 146): query the items whose
`categoryId` equals the given id, then one batch deletes every matched
item document plus the category document; the batch commits atomically,
which the sequential model renders as a single state update. -/
def deleteCategoryWithItems (input : DeleteCategoryInput) (context : Context)
    (st : StockState) :
    Except Failure Nat × StockState :=
  match requireAdmin context with
  | .error e => (.error (.https e), st)
  | .ok _ =>
    let categoryId := jsTrim (jsOr input.categoryId "")
    if categoryId = "" then
      (.error (.https ⟨.invalidArgument, "Category id is required."⟩), st)
    else
      let itemsQuery := st.stockItems.filter (fun p => p.2.categoryId = categoryId)
      let afterItems := itemsQuery.foldl (fun acc p => deleteDoc acc p.1) st.stockItems
      let afterCategories := deleteDoc st.stockCategories categoryId
      (.ok itemsQuery.length, ⟨afterItems, afterCategories⟩)

/-! ## sendDispatchEmail -/

/-- An entry of an order's `eggs` array.  `quantity` is optional because
the code reads it as `item.quantity ?? 0`. -/
structure EggItem where
  label : String
  quantity : Option Int := none
  deriving DecidableEq, Repr

/-- An order document (egg order or livestock order). -/
structure Order where
  email : Option String := none
  name : Option String := none
  surname : Option String := none
  orderNumber : Option String := none
  sendDate : Option String := none
  deliveryOption : Option String := none
  trackingLink : Option String := none
  eggs : Option (List EggItem) := none
  dispatchEmailSentAt : Option Nat := none
  deriving DecidableEq, Repr

/-- The two order collections the handler may address. -/
structure OrdersState where
  eggOrders : List (String × Order) := []
  livestockOrders : List (String × Order) := []
  deriving DecidableEq, Repr

/-- The message handed to the email provider (`sender` embeds the JS
`from` field, which is a reserved word here). -/
structure EmailMessage where
  sender : String
  «to» : List String
  subject : String
  html : String
  deriving DecidableEq, Repr

/-- The input object of `sendDispatchEmail`. -/
structure DispatchInput where
  collectionName : Option String := none
  orderId : Option String := none
  deriving DecidableEq, Repr

/-- The rendering of one included item: `label x quantity`. -/
def renderEggItem (item : EggItem) : String :=
  item.label ++ " x " ++ (match item.quantity with | some q => toString q | none => "undefined")

/-- The item summary: entries with quantity greater than zero, rendered
and joined by commas (index.js line 207). -/
def itemSummaryOf (items : List EggItem) : String :=
  String.intercalate ", " ((items.filter (fun i => i.quantity.getD 0 > 0)).map renderEggItem)

/-- The display name: name and surname, falsy parts dropped, joined by a
space and trimmed, with fallback `Customer` (index.js line 201). -/
def displayNameOf (order : Order) : String :=
  let joined := jsTrim (String.intercalate " "
    (([order.name, order.surname].filterMap id).filter (fun s => s ≠ "")))
  if joined = "" then "Customer" else joined

/-- The HTML body of the dispatch email (index.js line 220), with the
conditional lines already substituted. -/
def dispatchHtml (name orderNumberLabel sendDateLine deliveryLine itemLine trackingLine :
    String) : String :=
  "\n    <p>Hi " ++ name ++ ",</p>\n    <p>Your order" ++ orderNumberLabel ++
    " is being prepared for dispatch.</p>\n    " ++ sendDateLine ++ "\n    " ++
    deliveryLine ++ "\n    " ++ itemLine ++ "\n    " ++ trackingLine ++
    "\n    <p>If you have questions, reply to this email.</p>\n    <p>Thank you,</p>\n    <p>The Crooked Fence</p>\n  "

/-- The whole message `sendDispatchEmail` builds for an order with
customer email `email` (index.js lines 201 to 237). -/
def dispatchMessage (order : Order) (email : String) : EmailMessage :=
  let name := displayNameOf order
  let orderNumberLabel :=
    match order.orderNumber with
    | some n => if n = "" then "" else " " ++ n
    | none => ""
  let sendDate := jsOr order.sendDate ""
  let delivery := jsOr order.deliveryOption ""
  let trackingLink := jsOr order.trackingLink ""
  let itemSummary := itemSummaryOf (order.eggs.getD [])
  let sendDateLine :=
    if sendDate = "" then "" else "<p><strong>Send date:</strong> " ++ sendDate ++ "</p>"
  let deliveryLine :=
    if delivery = "" then "" else "<p><strong>Delivery:</strong> " ++ delivery ++ "</p>"
  let itemLine :=
    if itemSummary = "" then "" else "<p><strong>Items:</strong> " ++ itemSummary ++ "</p>"
  let trackingLine :=
    if trackingLink = "" then ""
    else "<p><strong>Tracking:</strong> <a href=\"" ++ trackingLink ++ "\">" ++
      trackingLink ++ "</a></p>"
  { sender := "The Crooked Fence <no-reply@thecrookedfence.co.za>",
    «to» := [email],
    subject := "Your order" ++ orderNumberLabel ++ " update from The Crooked Fence",
    html := dispatchHtml name orderNumberLabel sendDateLine deliveryLine itemLine trackingLine }

/-- JS `result?.data?.id || null` on the provider response. -/
def responseId (dataId : Option String) : Option String :=
  if jsOr dataId "" = "" then none else some (jsOr dataId "")

/-- `sendDispatchEmail` (index.js line 168).  `send` is the behaviour of
`resend.emails.send` on this request: `.error msg` when the awaited call
rejects, `.ok dataId` when it resolves with an optional message id.
`now` is the server timestamp of the stamp write. -/
def sendDispatchEmail (input : DispatchInput) (context : Context) (cfg : Config)
    (send : EmailMessage → Except String (Option String)) (st : OrdersState) (now : Nat) :
    Except Failure (Option String) × OrdersState :=
  match requireStaff context with
  | .error e => (.error (.https e), st)
  | .ok _ =>
    match getResendClient cfg with
    | none =>
      (.error (.https ⟨.failedPrecondition, "Resend API key is not configured."⟩), st)
    | some _ =>
      let collectionName := jsTrim (jsOr input.collectionName "")
      if collectionName ∉ ["eggOrders", "livestockOrders"] then
        (.error (.https ⟨.invalidArgument, "Invalid collection name."⟩), st)
      else
        let orderId := jsTrim (jsOr input.orderId "")
        if orderId = "" then
          (.error (.https ⟨.invalidArgument, "Order id is required."⟩), st)
        else
          let coll :=
            if collectionName = "eggOrders" then st.eggOrders else st.livestockOrders
          match lookupDoc coll orderId with
          | none => (.error (.https ⟨.notFound, "Order not found."⟩), st)
          | some order =>
            let email := jsTrim (jsOr order.email "")
            if email = "" then
              (.error (.https ⟨.failedPrecondition, "Order email is missing."⟩), st)
            else
              match send (dispatchMessage order email) with
              | .error msg => (.error (.emailSend msg), st)
              | .ok dataId =>
                let stamped := { order with dispatchEmailSentAt := some now }
                let coll1 := setDoc coll orderId stamped
                let st1 : OrdersState :=
                  if collectionName = "eggOrders" then { st with eggOrders := coll1 }
                  else { st with livestockOrders := coll1 }
                (.ok (responseId dataId), st1)

/-! ## sendTestEmail -/

/-- The `to` field of the test-email input: an array, a single value
(coerced to a string by `|| ""`), or absent. -/
inductive TestRecipients where
  | missing
  | single (s : String)
  | many (l : List String)
  deriving DecidableEq, Repr

/-- The input object of `sendTestEmail` (`sender` embeds the JS `from`). -/
structure TestEmailInput where
  «to» : TestRecipients := .missing
  subject : Option String := none
  html : Option String := none
  sender : Option String := none
  deriving DecidableEq, Repr

/-- The message `sendTestEmail` builds (index.js lines 258 to 267). -/
def testMessage (input : TestEmailInput) : EmailMessage :=
  let recipients :=
    match input.«to» with
    | .many l => l
    | .single s => [if s = "" then "" else s]
    | .missing => [""]
  { sender := jsOr input.sender "The Crooked Fence <no-reply@thecrookedfence.co.za>",
    «to» := recipients,
    subject := jsOr input.subject "The Crooked Fence test email",
    html := jsOr input.html "<p>It works!</p>" }

/-- `sendTestEmail` (index.js line 247); no persistence side effect, so no
store state is threaded. -/
def sendTestEmail (input : TestEmailInput) (context : Context) (cfg : Config)
    (send : EmailMessage → Except String (Option String)) :
    Except Failure (Option String) :=
  match requireAdmin context with
  | .error e => .error (.https e)
  | .ok _ =>
    match getResendClient cfg with
    | none => .error (.https ⟨.failedPrecondition, "Resend API key is not configured."⟩)
    | some _ =>
      match send (testMessage input) with
      | .error msg => .error (.emailSend msg)
      | .ok dataId => .ok (responseId dataId)

/-! ## The temporary-password pattern -/

/-- A base-36 digit as rendered by JS `Number.prototype.toString(36)`:
a lower-case letter or a decimal digit. -/
def isBase36Char (c : Char) : Bool :=
  ('a' ≤ c && c ≤ 'z') || ('0' ≤ c && c ≤ '9')

/-- The pattern `Temp[a-z0-9]{8}!` of the specification: thirteen
characters, the prefix `Temp`, eight base-36 characters, a final `!`. -/
def matchesTempPattern (s : String) : Bool :=
  s.data.length == 13 &&
  s.data.take 4 == ['T', 'e', 'm', 'p'] &&
  ((s.data.take 12).drop 4).all isBase36Char &&
  s.data.drop 12 == ['!']

/-- The strings `Math.random().toString(36)` can produce for an argument
in `[0, 1)`: either `"0"` (for zero) or `"0."` followed by a non-empty
sequence of base-36 digits with no trailing zero digit (JS prints the
shortest representation and strips trailing zeros). -/
def validRandomRepr (s : String) : Prop :=
  s = "0" ∨ ∃ ds : List Char, ds ≠ [] ∧ ds.all isBase36Char = true ∧
    ds.getLast? ≠ some '0' ∧ s.data = '0' :: '.' :: ds

/-! ## Laws of the store primitives and of the guards -/

theorem lookupDoc_setDoc_self {α : Type} (l : List (String × α)) (id : String) (d : α) :
    lookupDoc (setDoc l id d) id = some d := by
  induction l with
  | nil => simp [setDoc, lookupDoc]
  | cons p rest ih =>
    by_cases h : p.1 = id
    · simp [setDoc, h, lookupDoc]
    · simp [setDoc, h, lookupDoc, ih]

/-- The role resolver yields no role when the role claim is not truthy and
the lower-cased email is outside the allow-list. -/
theorem getRoleFromContext_eq_none (ctx : Context)
    (hclaim : claimRoleOf ctx = none)
    (hemail : tokenEmailLower ctx ∉ BOOTSTRAP_ADMINS) :
    getRoleFromContext ctx = none := by
  unfold getRoleFromContext
  rw [hclaim]
  simp [hemail]

theorem requireAdmin_of_role_none (ctx : Context)
    (h : getRoleFromContext ctx = none) :
    requireAdmin ctx = .error ⟨.permissionDenied, "Admin access required."⟩ := by
  unfold requireAdmin
  rw [h]
  rfl

theorem requireStaff_of_role_none (ctx : Context)
    (h : getRoleFromContext ctx = none) :
    requireStaff ctx = .error ⟨.permissionDenied, "Staff access required."⟩ := by
  unfold requireStaff
  rw [h]
  rfl

theorem createAuthUser_guardFail (input : CreateUserInput) (ctx : Context)
    (rr nu : String) (auth : AuthState) (users : List (String × UserDoc)) (now : Nat)
    (e : HttpsError) (h : requireAdmin ctx = .error e) :
    createAuthUser input ctx rr nu auth users now = (.error (.https e), auth, users) := by
  simp only [createAuthUser, h]

theorem updateAuthUserStatus_guardFail (input : UpdateStatusInput) (ctx : Context)
    (auth : AuthState) (users : List (String × UserDoc)) (now : Nat)
    (e : HttpsError) (h : requireAdmin ctx = .error e) :
    updateAuthUserStatus input ctx auth users now = (.error (.https e), auth, users) := by
  simp only [updateAuthUserStatus, h]

theorem deleteAuthUser_guardFail (input : DeleteUserInput) (ctx : Context)
    (auth : AuthState) (users : List (String × UserDoc))
    (e : HttpsError) (h : requireAdmin ctx = .error e) :
    deleteAuthUser input ctx auth users = (.error (.https e), auth, users) := by
  simp only [deleteAuthUser, h]

theorem deleteCategoryWithItems_guardFail (input : DeleteCategoryInput) (ctx : Context)
    (st : StockState) (e : HttpsError) (h : requireAdmin ctx = .error e) :
    deleteCategoryWithItems input ctx st = (.error (.https e), st) := by
  simp only [deleteCategoryWithItems, h]

theorem sendDispatchEmail_guardFail (input : DispatchInput) (ctx : Context) (cfg : Config)
    (send : EmailMessage → Except String (Option String)) (st : OrdersState) (now : Nat)
    (e : HttpsError) (h : requireStaff ctx = .error e) :
    sendDispatchEmail input ctx cfg send st now = (.error (.https e), st) := by
  simp only [sendDispatchEmail, h]

theorem sendTestEmail_guardFail (input : TestEmailInput) (ctx : Context) (cfg : Config)
    (send : EmailMessage → Except String (Option String))
    (e : HttpsError) (h : requireAdmin ctx = .error e) :
    sendTestEmail input ctx cfg send = .error (.https e) := by
  simp only [sendTestEmail, h]

/-! ## Claims about the role resolver and the guards -/

/-- C4 (counterexample): a token that carries the role claim `""` is not
resolved to that claim verbatim — the falsy claim falls through to the
bootstrap allow-list, and with a bootstrap email the resolver returns
`"admin"` instead of `""`. -/
theorem roleClaim_empty_not_verbatim :
    claimRoleOf ⟨some ⟨"u1", ⟨some "admin@thecrookedfence.co.za", some ""⟩⟩⟩ = some "" ∧
    getRoleFromContext ⟨some ⟨"u1", ⟨some "admin@thecrookedfence.co.za", some ""⟩⟩⟩ =
      some "admin" ∧
    (some "admin" : Option String) ≠ some "" :=
  ⟨rfl, by decide, by decide⟩

/-- C4 (amended): for every authentication context whose token carries a
non-empty (truthy) role claim, the role resolver returns that claim value
verbatim, whatever it is, without consulting the bootstrap allow-list;
an empty-string claim instead falls through to the allow-list check. -/
theorem roleClaim_returned_verbatim (ctx : Context) (r : String)
    (hclaim : claimRoleOf ctx = some r) (hr : r ≠ "") :
    getRoleFromContext ctx = some r := by
  unfold getRoleFromContext
  rw [hclaim]
  simp [hr]

/-- C4 (witness): a fancier-than-known role claim is passed through. -/
theorem roleClaim_returned_verbatim_witness :
    getRoleFromContext ⟨some ⟨"u2", ⟨some "x@y.z", some "gardener"⟩⟩⟩ = some "gardener" :=
  roleClaim_returned_verbatim ⟨some ⟨"u2", ⟨some "x@y.z", some "gardener"⟩⟩⟩ "gardener"
    rfl (by decide)

/-- C5: a caller whose token has no role claim and whose lower-cased email
is not in the bootstrap allow-list fails both guards with
permission-denied, and every guarded handler then returns exactly that
error with all of its stores untouched (it aborts before any store
access). -/
theorem guards_fail_permission_denied (ctx : Context)
    (hclaim : claimRoleOf ctx = none)
    (hemail : tokenEmailLower ctx ∉ BOOTSTRAP_ADMINS) :
    requireAdmin ctx = .error ⟨.permissionDenied, "Admin access required."⟩ ∧
    requireStaff ctx = .error ⟨.permissionDenied, "Staff access required."⟩ ∧
    (∀ input rr nu auth users now,
      createAuthUser input ctx rr nu auth users now =
        (.error (.https ⟨.permissionDenied, "Admin access required."⟩), auth, users)) ∧
    (∀ input auth users now,
      updateAuthUserStatus input ctx auth users now =
        (.error (.https ⟨.permissionDenied, "Admin access required."⟩), auth, users)) ∧
    (∀ input auth users,
      deleteAuthUser input ctx auth users =
        (.error (.https ⟨.permissionDenied, "Admin access required."⟩), auth, users)) ∧
    (∀ input st,
      deleteCategoryWithItems input ctx st =
        (.error (.https ⟨.permissionDenied, "Admin access required."⟩), st)) ∧
    (∀ input cfg send st now,
      sendDispatchEmail input ctx cfg send st now =
        (.error (.https ⟨.permissionDenied, "Staff access required."⟩), st)) ∧
    (∀ input cfg send,
      sendTestEmail input ctx cfg send =
        .error (.https ⟨.permissionDenied, "Admin access required."⟩)) := by
  have hrole : getRoleFromContext ctx = none := getRoleFromContext_eq_none ctx hclaim hemail
  have hA := requireAdmin_of_role_none ctx hrole
  have hS := requireStaff_of_role_none ctx hrole
  refine ⟨hA, hS, ?_, ?_, ?_, ?_, ?_, ?_⟩
  · intro input rr nu auth users now
    exact createAuthUser_guardFail input ctx rr nu auth users now _ hA
  · intro input auth users now
    exact updateAuthUserStatus_guardFail input ctx auth users now _ hA
  · intro input auth users
    exact deleteAuthUser_guardFail input ctx auth users _ hA
  · intro input st
    exact deleteCategoryWithItems_guardFail input ctx st _ hA
  · intro input cfg send st now
    exact sendDispatchEmail_guardFail input ctx cfg send st now _ hS
  · intro input cfg send
    exact sendTestEmail_guardFail input ctx cfg send _ hA

/-- C5 (witness): a caller with no claim and a foreign email is denied by
both guards, and `createAuthUser` returns the denial untouched. -/
theorem guards_fail_permission_denied_witness :
    requireAdmin ⟨some ⟨"u9", ⟨some "guest@example.com", none⟩⟩⟩ =
      .error ⟨.permissionDenied, "Admin access required."⟩ ∧
    requireStaff ⟨some ⟨"u9", ⟨some "guest@example.com", none⟩⟩⟩ =
      .error ⟨.permissionDenied, "Staff access required."⟩ :=
  ⟨(guards_fail_permission_denied ⟨some ⟨"u9", ⟨some "guest@example.com", none⟩⟩⟩
      rfl (by decide)).1,
   (guards_fail_permission_denied ⟨some ⟨"u9", ⟨some "guest@example.com", none⟩⟩⟩
      rfl (by decide)).2.1⟩

/-- C6: for a caller with no role claim, any letter casing of each of the
three bootstrap-admin addresses resolves to role `"admin"` (a string is a
casing of an address exactly when it lower-cases to it, the allow-list
entries being lower case), and every email outside the allow-list
resolves to no role at all. -/
theorem bootstrap_email_resolves_admin (uid e : String) :
    (∀ addr, addr ∈ BOOTSTRAP_ADMINS → jsToLower e = addr →
      getRoleFromContext ⟨some ⟨uid, ⟨some e, none⟩⟩⟩ = some "admin") ∧
    (jsToLower e ∉ BOOTSTRAP_ADMINS →
      getRoleFromContext ⟨some ⟨uid, ⟨some e, none⟩⟩⟩ = none) := by
  constructor
  · intro addr haddr hcase
    unfold getRoleFromContext
    have hmem : tokenEmailLower ⟨some ⟨uid, ⟨some e, none⟩⟩⟩ ∈ BOOTSTRAP_ADMINS := by
      simpa [tokenEmailLower, hcase] using haddr
    simp [claimRoleOf, hmem]
  · intro hout
    unfold getRoleFromContext
    have hmem : tokenEmailLower ⟨some ⟨uid, ⟨some e, none⟩⟩⟩ ∉ BOOTSTRAP_ADMINS := by
      simpa [tokenEmailLower] using hout
    simp [claimRoleOf, hmem]

/-- C6 (witness): a mixed-casing of the second bootstrap address resolves
to admin; an outside address resolves to nothing. -/
theorem bootstrap_email_resolves_admin_witness :
    getRoleFromContext ⟨some ⟨"u1", ⟨some "Admin@TheCrookedFence.CO.ZA", none⟩⟩⟩ =
      some "admin" ∧
    getRoleFromContext ⟨some ⟨"u2", ⟨some "stranger@example.com", none⟩⟩⟩ = none :=
  ⟨(bootstrap_email_resolves_admin "u1" "Admin@TheCrookedFence.CO.ZA").1
      "admin@thecrookedfence.co.za" (by decide) (by decide),
   (bootstrap_email_resolves_admin "u2" "stranger@example.com").2 (by decide)⟩

/-- C3 (counterexample): a call with no caller identity does not fail with
the unauthenticated code on every handler — `createAuthUser` rejects it
with permission-denied instead. -/
theorem no_identity_not_always_unauthenticated :
    (createAuthUser {} ⟨none⟩ "0.k2j4h1x9" "u1" ⟨[]⟩ [] 0).1 =
      .error (.https ⟨.permissionDenied, "Admin access required."⟩) ∧
    ErrorCode.permissionDenied ≠ ErrorCode.unauthenticated :=
  ⟨rfl, by decide⟩

/-- C3 (amended): with no caller identity, only `ensureCurrentUserProfile`
fails with the unauthenticated code; the six guarded handlers resolve the
missing identity to no role and fail with permission-denied, leaving
their stores untouched. -/
theorem no_identity_failure_codes :
    (∀ users now,
      ensureCurrentUserProfile ⟨none⟩ users now =
        (.error (.https ⟨.unauthenticated, "Sign in required."⟩), users)) ∧
    (∀ input rr nu auth users now,
      createAuthUser input ⟨none⟩ rr nu auth users now =
        (.error (.https ⟨.permissionDenied, "Admin access required."⟩), auth, users)) ∧
    (∀ input auth users now,
      updateAuthUserStatus input ⟨none⟩ auth users now =
        (.error (.https ⟨.permissionDenied, "Admin access required."⟩), auth, users)) ∧
    (∀ input auth users,
      deleteAuthUser input ⟨none⟩ auth users =
        (.error (.https ⟨.permissionDenied, "Admin access required."⟩), auth, users)) ∧
    (∀ input st,
      deleteCategoryWithItems input ⟨none⟩ st =
        (.error (.https ⟨.permissionDenied, "Admin access required."⟩), st)) ∧
    (∀ input cfg send st now,
      sendDispatchEmail input ⟨none⟩ cfg send st now =
        (.error (.https ⟨.permissionDenied, "Staff access required."⟩), st)) ∧
    (∀ input cfg send,
      sendTestEmail input ⟨none⟩ cfg send =
        .error (.https ⟨.permissionDenied, "Admin access required."⟩)) := by
  have hA : requireAdmin ⟨none⟩ = .error ⟨.permissionDenied, "Admin access required."⟩ :=
    rfl
  have hS : requireStaff ⟨none⟩ = .error ⟨.permissionDenied, "Staff access required."⟩ :=
    rfl
  refine ⟨fun users now => rfl, ?_, ?_, ?_, ?_, ?_, ?_⟩
  · intro input rr nu auth users now
    exact createAuthUser_guardFail input ⟨none⟩ rr nu auth users now _ hA
  · intro input auth users now
    exact updateAuthUserStatus_guardFail input ⟨none⟩ auth users now _ hA
  · intro input auth users
    exact deleteAuthUser_guardFail input ⟨none⟩ auth users _ hA
  · intro input st
    exact deleteCategoryWithItems_guardFail input ⟨none⟩ st _ hA
  · intro input cfg send st now
    exact sendDispatchEmail_guardFail input ⟨none⟩ cfg send st now _ hS
  · intro input cfg send
    exact sendTestEmail_guardFail input ⟨none⟩ cfg send _ hA

/-! ## Claims about createAuthUser (validation) and updateAuthUserStatus -/

/-- C9: for an admin caller, `createAuthUser` with a missing, empty or
whitespace-only email fails with invalid-argument, and both external
systems (the identity provider and the document store) are returned
exactly as they were — the guard aborts before any external call. -/
theorem createAuthUser_empty_email_rejected (input : CreateUserInput) (ctx : Context)
    (rr nu : String) (auth : AuthState) (users : List (String × UserDoc)) (now : Nat)
    (hadmin : requireAdmin ctx = .ok ())
    (hempty : jsTrim (jsOr input.email "") = "") :
    createAuthUser input ctx rr nu auth users now =
      (.error (.https ⟨.invalidArgument, "Email is required."⟩), auth, users) := by
  simp only [createAuthUser, hadmin]
  rw [hempty]
  rfl

/-- C9 (witness): a whitespace-only email is rejected even though a
password and a role were supplied. -/
theorem createAuthUser_empty_email_rejected_witness :
    createAuthUser ⟨some "   ", some "worker", some "hunter2"⟩
        ⟨some ⟨"a1", ⟨some "boss@x.co", some "admin"⟩⟩⟩ "0.abc123" "u7" ⟨[]⟩ [] 3 =
      (.error (.https ⟨.invalidArgument, "Email is required."⟩), ⟨[]⟩, []) :=
  createAuthUser_empty_email_rejected ⟨some "   ", some "worker", some "hunter2"⟩
    ⟨some ⟨"a1", ⟨some "boss@x.co", some "admin"⟩⟩⟩ "0.abc123" "u7" ⟨[]⟩ [] 3
    rfl (by decide)

/-- C10: for an admin caller and a uid with an identity-provider record,
`updateAuthUserStatus` coerces the `disabled` input with `Boolean` (so a
missing, null or otherwise falsy value re-enables the user and any truthy
value disables it), writes that one boolean to the identity provider and
merges the same boolean into the profile document, and returns it in
`{uid, disabled}`. -/
theorem updateAuthUserStatus_boolean_coercion (input : UpdateStatusInput) (ctx : Context)
    (auth : AuthState) (users : List (String × UserDoc)) (now : Nat) (record : AuthUser)
    (hadmin : requireAdmin ctx = .ok ())
    (huid : jsTrim (jsOr input.uid "") ≠ "")
    (hrec : lookupDoc auth.users (jsTrim (jsOr input.uid "")) = some record) :
    updateAuthUserStatus input ctx auth users now =
      (.ok ⟨jsTrim (jsOr input.uid ""), input.disabled.toBool⟩,
       ⟨setDoc auth.users (jsTrim (jsOr input.uid ""))
          { record with disabled := input.disabled.toBool }⟩,
       setDoc users (jsTrim (jsOr input.uid ""))
         { (lookupDoc users (jsTrim (jsOr input.uid ""))).getD {} with
             disabled := some input.disabled.toBool, updatedAt := some now }) := by
  simp only [updateAuthUserStatus, hadmin]
  rw [if_neg huid, hrec]

/-- C10 (witness): a `null` disabled input is coerced to `false` and that
value is returned and written to both stores. -/
theorem updateAuthUserStatus_boolean_coercion_witness :
    updateAuthUserStatus ⟨some "u5", .null⟩
        ⟨some ⟨"a1", ⟨some "boss@x.co", some "admin"⟩⟩⟩
        ⟨[("u5", ⟨"w@x.co", "pw1", true, some "worker"⟩)]⟩ [] 7 =
      (.ok ⟨"u5", false⟩,
       ⟨[("u5", ⟨"w@x.co", "pw1", false, some "worker"⟩)]⟩,
       [("u5", ⟨none, none, some false, none, some 7, []⟩)]) :=
  updateAuthUserStatus_boolean_coercion ⟨some "u5", .null⟩
    ⟨some ⟨"a1", ⟨some "boss@x.co", some "admin"⟩⟩⟩
    ⟨[("u5", ⟨"w@x.co", "pw1", true, some "worker"⟩)]⟩ [] 7
    ⟨"w@x.co", "pw1", true, some "worker"⟩ rfl (by decide) rfl

/-! ## Claim about ensureCurrentUserProfile -/

/-- What the first profile-sync write stores for a caller whose profile
document is absent. -/
theorem ensure_store_create (ctx : Context) (a : AuthInfo)
    (users : List (String × UserDoc)) (now : Nat)
    (hauth : ctx.auth = some a) (hlk : lookupDoc users a.uid = none) :
    (ensureCurrentUserProfile ctx users now).2 =
      setDoc users a.uid
        { email := some (jsOr a.token.email ""), role := getRoleFromContext ctx,
          disabled := some false, createdAt := some now, updatedAt := some now,
          rest := [] } := by
  simp only [ensureCurrentUserProfile, hauth, hlk]

/-- What the profile-sync merge stores for a caller whose profile document
is present: only `email`, `role` and `updatedAt` change. -/
theorem ensure_store_merge (ctx : Context) (a : AuthInfo)
    (users : List (String × UserDoc)) (now : Nat) (old : UserDoc)
    (hauth : ctx.auth = some a) (hlk : lookupDoc users a.uid = some old) :
    (ensureCurrentUserProfile ctx users now).2 =
      setDoc users a.uid
        { old with
            email := some (jsOr a.token.email ""),
            role := match getRoleFromContext ctx with
                    | some r => some r
                    | none => old.role,
            updatedAt := some now } := by
  simp only [ensureCurrentUserProfile, hauth, hlk]

/-- C8: `ensureCurrentUserProfile` is idempotent.  Two consecutive calls
with the same identity (hence no intervening role change) leave the same
stored email, role, disabled flag, creation timestamp and other fields
after each call; when the profile was absent the first call creates it
with `disabled = false` (so it stays `false` under all later calls); and
on an existing profile the merge rewrites only `email`, `role` and
`updatedAt`, every other field being copied over from the old document. -/
theorem ensureCurrentUserProfile_idempotent (ctx : Context) (a : AuthInfo)
    (users users1 users2 : List (String × UserDoc)) (n1 n2 : Nat)
    (hauth : ctx.auth = some a)
    (h1 : users1 = (ensureCurrentUserProfile ctx users n1).2)
    (h2 : users2 = (ensureCurrentUserProfile ctx users1 n2).2) :
    (∃ d1 d2 : UserDoc,
      lookupDoc users1 a.uid = some d1 ∧ lookupDoc users2 a.uid = some d2 ∧
      d1.email = d2.email ∧ d1.role = d2.role ∧ d1.disabled = d2.disabled ∧
      d1.createdAt = d2.createdAt ∧ d1.rest = d2.rest) ∧
    (lookupDoc users a.uid = none →
      ∃ d1 d2 : UserDoc,
        lookupDoc users1 a.uid = some d1 ∧ d1.disabled = some false ∧
        lookupDoc users2 a.uid = some d2 ∧ d2.disabled = some false) ∧
    (∀ old : UserDoc, lookupDoc users a.uid = some old →
      lookupDoc users1 a.uid = some
        { old with
            email := some (jsOr a.token.email ""),
            role := match getRoleFromContext ctx with
                    | some r => some r
                    | none => old.role,
            updatedAt := some n1 }) := by
  cases hlk : lookupDoc users a.uid with
  | none =>
    have hu1 : users1 = setDoc users a.uid
        { email := some (jsOr a.token.email ""), role := getRoleFromContext ctx,
          disabled := some false, createdAt := some n1, updatedAt := some n1,
          rest := [] } := by
      rw [h1, ensure_store_create ctx a users n1 hauth hlk]
    have hl1 : lookupDoc users1 a.uid = some
        { email := some (jsOr a.token.email ""), role := getRoleFromContext ctx,
          disabled := some false, createdAt := some n1, updatedAt := some n1,
          rest := [] } := by
      rw [hu1]; exact lookupDoc_setDoc_self users a.uid _
    have hu2 : users2 = setDoc users1 a.uid
        { email := some (jsOr a.token.email ""),
          role := match getRoleFromContext ctx with
                  | some r => some r
                  | none => getRoleFromContext ctx,
          disabled := some false, createdAt := some n1, updatedAt := some n2,
          rest := [] } := by
      rw [h2, ensure_store_merge ctx a users1 n2 _ hauth hl1]
    have hrole : (match getRoleFromContext ctx with
                  | some r => some r
                  | none => getRoleFromContext ctx) = getRoleFromContext ctx := by
      cases getRoleFromContext ctx <;> rfl
    have hl2 : lookupDoc users2 a.uid = some
        { email := some (jsOr a.token.email ""), role := getRoleFromContext ctx,
          disabled := some false, createdAt := some n1, updatedAt := some n2,
          rest := [] } := by
      rw [hu2, hrole]; exact lookupDoc_setDoc_self users1 a.uid _
    refine ⟨⟨_, _, hl1, hl2, rfl, rfl, rfl, rfl, rfl⟩, ?_, ?_⟩
    · intro _
      exact ⟨_, _, hl1, rfl, hl2, rfl⟩
    · intro old hold
      cases hold
  | some old =>
    have hd1 : lookupDoc users1 a.uid = some
        { old with
            email := some (jsOr a.token.email ""),
            role := match getRoleFromContext ctx with
                    | some r => some r
                    | none => old.role,
            updatedAt := some n1 } := by
      rw [h1, ensure_store_merge ctx a users n1 old hauth hlk]
      exact lookupDoc_setDoc_self users a.uid _
    have hd2 : lookupDoc users2 a.uid = some
        { old with
            email := some (jsOr a.token.email ""),
            role := match getRoleFromContext ctx with
                    | some r => some r
                    | none =>
                      match getRoleFromContext ctx with
                      | some r => some r
                      | none => old.role,
            updatedAt := some n2 } := by
      rw [h2, ensure_store_merge ctx a users1 n2 _ hauth hd1]
      exact lookupDoc_setDoc_self users1 a.uid _
    have hrole : (match getRoleFromContext ctx with
                  | some r => some r
                  | none =>
                    match getRoleFromContext ctx with
                    | some r => some r
                    | none => old.role) =
        (match getRoleFromContext ctx with
         | some r => some r
         | none => old.role) := by
      cases getRoleFromContext ctx <;> rfl
    rw [hrole] at hd2
    refine ⟨⟨_, _, hd1, hd2, rfl, rfl, rfl, rfl, rfl⟩, ?_, ?_⟩
    · intro hnone
      cases hnone
    · intro old2 hold2
      cases hold2
      exact hd1

/-- C8 (witness): a fresh caller synced twice ends with the same stored
email and role both times and a `disabled` flag that stays `false`. -/
theorem ensureCurrentUserProfile_idempotent_witness :
    (∃ d1 d2 : UserDoc,
      lookupDoc [("u1", (⟨some "x@y.z", none, some false, some 1, some 1, []⟩ : UserDoc))]
        "u1" = some d1 ∧
      lookupDoc [("u1", (⟨some "x@y.z", none, some false, some 1, some 2, []⟩ : UserDoc))]
        "u1" = some d2 ∧
      d1.email = d2.email ∧ d1.role = d2.role ∧ d1.disabled = d2.disabled ∧
      d1.createdAt = d2.createdAt ∧ d1.rest = d2.rest) ∧
    (lookupDoc ([] : List (String × UserDoc)) "u1" = none →
      ∃ d1 d2 : UserDoc,
        lookupDoc [("u1", (⟨some "x@y.z", none, some false, some 1, some 1, []⟩ : UserDoc))]
          "u1" = some d1 ∧ d1.disabled = some false ∧
        lookupDoc [("u1", (⟨some "x@y.z", none, some false, some 1, some 2, []⟩ : UserDoc))]
          "u1" = some d2 ∧ d2.disabled = some false) ∧
    (∀ old : UserDoc, lookupDoc ([] : List (String × UserDoc)) "u1" = some old →
      lookupDoc [("u1", (⟨some "x@y.z", none, some false, some 1, some 1, []⟩ : UserDoc))]
        "u1" = some
        { old with
            email := some (jsOr (some "x@y.z") ""),
            role := match getRoleFromContext ⟨some ⟨"u1", ⟨some "x@y.z", none⟩⟩⟩ with
                    | some r => some r
                    | none => old.role,
            updatedAt := some 1 }) :=
  ensureCurrentUserProfile_idempotent ⟨some ⟨"u1", ⟨some "x@y.z", none⟩⟩⟩
    ⟨"u1", ⟨some "x@y.z", none⟩⟩ [] _ _ 1 2 rfl (by decide) (by decide)

/-! ## Claim about deleteCategoryWithItems -/

/-- Folding single-document deletes over a list of entries removes exactly
the entries whose key occurs among the deleted keys. -/
theorem foldl_deleteDoc_eq_filter {α : Type} (ps : List (String × α))
    (l : List (String × α)) :
    ps.foldl (fun acc p => deleteDoc acc p.1) l =
      l.filter (fun q => ps.all (fun p => q.1 ≠ p.1)) := by
  induction ps generalizing l with
  | nil => simp
  | cons p ps ih =>
    rw [List.foldl_cons, ih (deleteDoc l p.1)]
    unfold deleteDoc
    rw [List.filter_filter]
    apply List.filter_congr
    intro x _
    simp [Bool.and_comm]

/-- Deleting every document matched by the category query removes exactly
the matching items, provided document ids are unique in the store. -/
theorem delete_matched_eq_filter_not (st : List (String × StockItem)) (cid : String)
    (hnodup : (st.map Prod.fst).Nodup) :
    (st.filter (fun p => p.2.categoryId = cid)).foldl
        (fun acc p => deleteDoc acc p.1) st =
      st.filter (fun p => ¬ p.2.categoryId = cid) := by
  rw [foldl_deleteDoc_eq_filter]
  apply List.filter_congr
  intro q hq
  rw [Bool.eq_iff_iff]
  simp only [List.all_eq_true, List.mem_filter, decide_eq_true_eq]
  constructor
  · intro hall hmatch
    exact hall q ⟨hq, by simpa using hmatch⟩ rfl
  · intro hnot p hp hkey
    have hq_eq_p : q = p := List.inj_on_of_nodup_map hnodup hq hp.1 hkey
    apply hnot
    have := hp.2
    rw [← hq_eq_p] at this
    simpa using this

/-- C7: for an admin caller and a non-empty (trimmed) category id,
`deleteCategoryWithItems` removes exactly the stock items whose
`categoryId` equals the id plus the category document itself — the batch
is one state update in this sequential model — and returns the number of
matched items; with no matching items that count is zero and the category
document is still deleted. -/
theorem deleteCategoryWithItems_correct (ctx : Context) (st : StockState) (cid : String)
    (hadmin : requireAdmin ctx = .ok ())
    (hnodup : (st.stockItems.map Prod.fst).Nodup)
    (htrim : jsTrim cid = cid) (hne : cid ≠ "") :
    deleteCategoryWithItems ⟨some cid⟩ ctx st =
      (.ok (st.stockItems.filter (fun p => p.2.categoryId = cid)).length,
       ⟨st.stockItems.filter (fun p => ¬ p.2.categoryId = cid),
        deleteDoc st.stockCategories cid⟩) := by
  have hcat : jsTrim (jsOr (some cid) "") = cid := by
    simp [jsOr, hne, htrim]
  simp only [deleteCategoryWithItems, hadmin, hcat]
  rw [if_neg hne, delete_matched_eq_filter_not st.stockItems cid hnodup]

/-- C7 (witness): two of three items match the category and are deleted
together with the category document; the count comes back as two. -/
theorem deleteCategoryWithItems_correct_witness :
    deleteCategoryWithItems ⟨some "c1"⟩
        ⟨some ⟨"a1", ⟨some "boss@x.co", some "admin"⟩⟩⟩
        ⟨[("i1", ⟨"c1"⟩), ("i2", ⟨"c2"⟩), ("i3", ⟨"c1"⟩)],
         [("c1", ⟨"eggs"⟩), ("c2", ⟨"livestock"⟩)]⟩ =
      (.ok 2, ⟨[("i2", ⟨"c2"⟩)], [("c2", ⟨"livestock"⟩)]⟩) :=
  deleteCategoryWithItems_correct
    ⟨some ⟨"a1", ⟨some "boss@x.co", some "admin"⟩⟩⟩
    ⟨[("i1", ⟨"c1"⟩), ("i2", ⟨"c2"⟩), ("i3", ⟨"c1"⟩)],
     [("c1", ⟨"eggs"⟩), ("c2", ⟨"livestock"⟩)]⟩ "c1"
    rfl (by decide) (by decide) (by decide)

/-! ## Claim about the synthesized temporary password -/

/-- `slice(-8)` on a representation `"0." ++ ds` with at least eight
digits keeps exactly the last eight digits. -/
theorem jsSliceLast8_long (ds : List Char) (h : 8 ≤ ds.length) :
    jsSliceLast8 (String.mk ('0' :: '.' :: ds)) = String.mk (ds.drop (ds.length - 8)) := by
  unfold jsSliceLast8
  congr 1
  have hlen : ('0' :: '.' :: ds).length = ds.length + 2 := by simp
  rw [show (String.mk ('0' :: '.' :: ds)).data = '0' :: '.' :: ds from rfl, hlen,
    show ds.length + 2 - 8 = ds.length - 8 + 2 from by omega]
  rfl

/-- A suffix of a base-36 digit list is again all base-36 digits. -/
theorem all_base36_drop (ds : List Char) (n : Nat)
    (hall : ds.all isBase36Char = true) :
    (ds.drop n).all isBase36Char = true := by
  rw [List.all_eq_true] at hall ⊢
  intro c hc
  exact hall c (List.mem_of_mem_drop hc)

/-- Any eight base-36 digits wrapped as `Temp…!` match the pattern. -/
theorem matchesTempPattern_mk (u : List Char) (hlen : u.length = 8)
    (hall : u.all isBase36Char = true) :
    matchesTempPattern ("Temp" ++ String.mk u ++ "!") = true := by
  have hdata : ("Temp" ++ String.mk u ++ "!").data =
      'T' :: 'e' :: 'm' :: 'p' :: (u ++ ['!']) := rfl
  have htake : List.take 8 (u ++ ['!']) = u := List.take_left' hlen
  have hdrop : List.drop 8 (u ++ ['!']) = ['!'] := List.drop_left' hlen
  have h12 : List.take 12 ('T' :: 'e' :: 'm' :: 'p' :: (u ++ ['!'])) =
      'T' :: 'e' :: 'm' :: 'p' :: List.take 8 (u ++ ['!']) := rfl
  have hd12 : List.drop 12 ('T' :: 'e' :: 'm' :: 'p' :: (u ++ ['!'])) =
      List.drop 8 (u ++ ['!']) := rfl
  unfold matchesTempPattern
  rw [hdata, h12, hd12, htake, hdrop]
  simp [hlen, hall]

/-- C2 (counterexample): `Math.random()` can return `0.5`, whose base-36
representation is `"0.i"`; the synthesized password is then `"Temp0.i!"`,
which does not match `Temp[a-z0-9]{8}!` (it is five characters short and
contains a dot). -/
theorem tempPassword_pattern_counterexample :
    validRandomRepr "0.i" ∧
    (createAuthUser ⟨some "new@example.com", none, none⟩
        ⟨some ⟨"a1", ⟨some "boss@x.co", some "admin"⟩⟩⟩ "0.i" "u1" ⟨[]⟩ [] 0).1 =
      .ok ⟨"u1", some "Temp0.i!"⟩ ∧
    matchesTempPattern "Temp0.i!" = false :=
  ⟨Or.inr ⟨['i'], by decide, by decide, by decide, by decide⟩, rfl, by decide⟩

/-- C2 (amended): for an admin caller with a non-empty email and a fresh
account, when no password (or a whitespace-only one) is supplied the
returned `temporaryPassword` matches `Temp[a-z0-9]{8}!` for every random
value whose base-36 representation carries at least eight fractional
digits (shorter representations, such as the one of `0.5`, escape the
pattern); when a non-blank password is supplied, `temporaryPassword` is
null, so the supplied password is never echoed back. -/
theorem tempPassword_pattern (input : CreateUserInput) (ctx : Context) (ds : List Char)
    (nu : String) (auth : AuthState) (users : List (String × UserDoc)) (now : Nat)
    (hadmin : requireAdmin ctx = .ok ())
    (hemail : jsToLower (jsTrim (jsOr input.email "")) ≠ "")
    (hfresh : auth.users.any
      (fun p => p.2.email = jsToLower (jsTrim (jsOr input.email ""))) = false)
    (hlen : 8 ≤ ds.length) (hall : ds.all isBase36Char = true) :
    (jsTrim (jsOr input.password "") = "" →
      (createAuthUser input ctx (String.mk ('0' :: '.' :: ds)) nu auth users now).1 =
        .ok ⟨nu, some ("Temp" ++ jsSliceLast8 (String.mk ('0' :: '.' :: ds)) ++ "!")⟩ ∧
      matchesTempPattern
        ("Temp" ++ jsSliceLast8 (String.mk ('0' :: '.' :: ds)) ++ "!") = true) ∧
    (jsTrim (jsOr input.password "") ≠ "" →
      (createAuthUser input ctx (String.mk ('0' :: '.' :: ds)) nu auth users now).1 =
        .ok ⟨nu, none⟩) := by
  have hpat : matchesTempPattern
      ("Temp" ++ jsSliceLast8 (String.mk ('0' :: '.' :: ds)) ++ "!") = true := by
    rw [jsSliceLast8_long ds hlen]
    refine matchesTempPattern_mk (ds.drop (ds.length - 8)) ?_ ?_
    · rw [List.length_drop]
      omega
    · exact all_base36_drop ds (ds.length - 8) hall
  constructor
  · intro hpw
    refine ⟨?_, hpat⟩
    simp only [createAuthUser, hadmin, hfresh]
    rw [if_neg hemail, hpw]
    rfl
  · intro hpw
    simp only [createAuthUser, hadmin, hfresh]
    rw [if_neg hemail, if_pos hpw, if_pos hpw]
    rfl

/-- C2 (witness): with no password and the ten-character representation
`"0.a1b2c3d4"`, the synthesized password is `"Tempa1b2c3d4!"` and matches
the pattern; with the password `"S3cret!"` supplied, `temporaryPassword`
is null. -/
theorem tempPassword_pattern_witness :
    ((createAuthUser ⟨some "new@example.com", none, none⟩
        ⟨some ⟨"a1", ⟨some "boss@x.co", some "admin"⟩⟩⟩
        (String.mk ('0' :: '.' :: ['a', '1', 'b', '2', 'c', '3', 'd', '4']))
        "u1" ⟨[]⟩ [] 0).1 =
      .ok ⟨"u1", some "Tempa1b2c3d4!"⟩ ∧
     matchesTempPattern "Tempa1b2c3d4!" = true) ∧
    ((createAuthUser ⟨some "new@example.com", none, some "S3cret!"⟩
        ⟨some ⟨"a1", ⟨some "boss@x.co", some "admin"⟩⟩⟩
        (String.mk ('0' :: '.' :: ['a', '1', 'b', '2', 'c', '3', 'd', '4']))
        "u1" ⟨[]⟩ [] 0).1 =
      .ok ⟨"u1", none⟩) :=
  ⟨(tempPassword_pattern ⟨some "new@example.com", none, none⟩
      ⟨some ⟨"a1", ⟨some "boss@x.co", some "admin"⟩⟩⟩
      ['a', '1', 'b', '2', 'c', '3', 'd', '4'] "u1" ⟨[]⟩ [] 0
      rfl (by decide) (by decide) (by decide) (by decide)).1 (by decide),
   (tempPassword_pattern ⟨some "new@example.com", none, some "S3cret!"⟩
      ⟨some ⟨"a1", ⟨some "boss@x.co", some "admin"⟩⟩⟩
      ['a', '1', 'b', '2', 'c', '3', 'd', '4'] "u1" ⟨[]⟩ [] 0
      rfl (by decide) (by decide) (by decide) (by decide)).2 (by decide)⟩

/-! ## Claim about sendDispatchEmail -/

/-- `v || ""` keeps a non-empty string. -/
theorem jsOr_some_ne (s : String) (hs : s ≠ "") : jsOr (some s) "" = s := by
  simp [jsOr, hs]

/-- C1: for a staff caller, a configured email client and a stored order
with a non-empty (trimmed) email, `sendDispatchEmail` stamps
`dispatchEmailSentAt` only after the provider send succeeds.  If the send
rejects, the failure propagates to the caller and the whole store — in
particular the order document and its absent `dispatchEmailSentAt` — is
returned unchanged; if the send resolves, the order document is merged
with the `dispatchEmailSentAt` timestamp. -/
theorem sendDispatchEmail_stamp_only_after_send (ctx : Context) (cfg : Config)
    (send : EmailMessage → Except String (Option String)) (st : OrdersState) (now : Nat)
    (cn oid : String) (order : Order)
    (hstaff : requireStaff ctx = .ok ())
    (hcfg : (getResendClient cfg).isSome = true)
    (hcn : cn = "eggOrders" ∨ cn = "livestockOrders")
    (hoid : jsTrim oid = oid) (hoidne : oid ≠ "")
    (horder : lookupDoc (if cn = "eggOrders" then st.eggOrders else st.livestockOrders)
      oid = some order)
    (hemail : jsTrim (jsOr order.email "") ≠ "") :
    (∀ msg, send (dispatchMessage order (jsTrim (jsOr order.email ""))) = .error msg →
      sendDispatchEmail ⟨some cn, some oid⟩ ctx cfg send st now =
        (.error (.emailSend msg), st)) ∧
    (∀ dataId, send (dispatchMessage order (jsTrim (jsOr order.email ""))) = .ok dataId →
      sendDispatchEmail ⟨some cn, some oid⟩ ctx cfg send st now =
        (.ok (responseId dataId),
         if cn = "eggOrders" then
           { st with eggOrders :=
               setDoc st.eggOrders oid { order with dispatchEmailSentAt := some now } }
         else
           { st with livestockOrders :=
               setDoc st.livestockOrders oid { order with dispatchEmailSentAt := some now } })) := by
  obtain ⟨key, hkey⟩ := Option.isSome_iff_exists.mp hcfg
  rcases hcn with rfl | rfl
  · rw [if_pos rfl] at horder
    have hname : jsTrim (jsOr (some "eggOrders") "") = "eggOrders" := by decide
    constructor
    · intro msg hsend
      simp [sendDispatchEmail, hstaff, hkey, hname, jsOr_some_ne oid hoidne, hoid,
        hoidne, horder, hemail, hsend]
    · intro dataId hsend
      simp [sendDispatchEmail, hstaff, hkey, hname, jsOr_some_ne oid hoidne, hoid,
        hoidne, horder, hemail, hsend]
  · rw [if_neg (by decide : ¬ ("livestockOrders" : String) = "eggOrders")] at horder
    have hname : jsTrim (jsOr (some "livestockOrders") "") = "livestockOrders" := by
      decide
    constructor
    · intro msg hsend
      simp [sendDispatchEmail, hstaff, hkey, hname, jsOr_some_ne oid hoidne, hoid,
        hoidne, horder, hemail, hsend]
    · intro dataId hsend
      simp [sendDispatchEmail, hstaff, hkey, hname, jsOr_some_ne oid hoidne, hoid,
        hoidne, horder, hemail, hsend]

/-- C1 (witness): a worker sends a dispatch notice for a stored egg order;
the provider resolves with id `m1`, and the order document comes back
stamped. -/
theorem sendDispatchEmail_stamp_witness :
    sendDispatchEmail ⟨some "eggOrders", some "o1"⟩
        ⟨some ⟨"w1", ⟨some "w@x.co", some "worker"⟩⟩⟩
        ⟨some "key123", none⟩ (fun _ => .ok (some "m1"))
        ⟨[("o1", ⟨some "cust@x.co", none, none, none, none, none, none, none, none⟩)],
         []⟩ 5 =
      (.ok (some "m1"),
       ⟨[("o1", ⟨some "cust@x.co", none, none, none, none, none, none, none, some 5⟩)],
        []⟩) :=
  (sendDispatchEmail_stamp_only_after_send
    ⟨some ⟨"w1", ⟨some "w@x.co", some "worker"⟩⟩⟩ ⟨some "key123", none⟩
    (fun _ => .ok (some "m1"))
    ⟨[("o1", ⟨some "cust@x.co", none, none, none, none, none, none, none, none⟩)], []⟩
    5 "eggOrders" "o1"
    ⟨some "cust@x.co", none, none, none, none, none, none, none, none⟩
    rfl rfl (Or.inl rfl) (by decide) (by decide) rfl (by decide)).2
    (some "m1") rfl

end CrookedFence
